import Mathlib

/-!
Verification of the AI scoring server's core pipeline
(src/app/models/dex_model.py, src/app/services/kafka_service.py,
src/app/utils/types.py).

Embedding conventions:
* Python floats are modelled as exact rationals (`ℚ`); the one place the code
  leaves rational arithmetic is `np.exp` in `_normalize_score`, modelled with
  `Real.exp` over `ℝ`.  Consequently category/overall scores live in `ℝ`.
* `datetime.now()` / `time.time()` are passed in explicitly as a parameter
  `now : ℤ` (unix seconds); wall-clock processing-time measurement is
  abstracted to `0` (no verified claim depends on its value).
* Raising an exception is modelled by `Except.error`; per-message isolation in
  the Kafka service turns such errors into failure records.
* `round(x, 2)` / the `%.18f` format round to nearest with ties away from the
  midpoint upward (`round` of Mathlib); CPython rounds ties of the underlying
  binary float to even, which differs only on exact half-way ties.  No claim
  below depends on the tie-breaking direction.
-/

/-- TokenInfo (src/app/utils/types.py lines 7-11). -/
structure TokenInfo where
  amount : ℤ
  amountUSD : ℚ
  address : String
  symbol : String
deriving DecidableEq

/-- Transaction (src/app/utils/types.py lines 14-25).  The `action` validator is
modelled separately by `validAction`; pydantic construction failure is part of
input validation (`validWalletInput`). -/
structure Transaction where
  document_id : String
  action : String
  timestamp : ℤ
  caller : String
  protocol : String
  poolId : String
  poolName : String
  tokenIn : Option TokenInfo := none
  tokenOut : Option TokenInfo := none
  token0 : Option TokenInfo := none
  token1 : Option TokenInfo := none
deriving DecidableEq

/-- ProtocolData (src/app/utils/types.py lines 35-37). -/
structure ProtocolData where
  protocolType : String
  transactions : List Transaction
deriving DecidableEq

/-- WalletTransactionInput (src/app/utils/types.py lines 40-48). -/
structure WalletTransactionInput where
  wallet_address : String
  data : List ProtocolData
deriving DecidableEq

/-- Valid actions (src/app/utils/types.py line 29). -/
def validActions : List String :=
  ["swap", "deposit", "withdraw", "add_liquidity", "remove_liquidity"]

/-- The `action` field validator (src/app/utils/types.py lines 27-32). -/
def validAction (a : String) : Bool :=
  validActions.contains a

/-- Python `str.startswith`, expressed on the character list of the string. -/
def pyStartsWith (s pre : String) : Bool :=
  pre.data.isPrefixOf s.data

/-- Python `str.lower`, character-wise on the string's characters (the
protocol-type strings involved are ASCII, where Python's `lower` and the
per-character lowering agree). -/
def pyLower (s : String) : String :=
  String.mk (s.data.map Char.toLower)

/-- The `wallet_address` field validator (src/app/utils/types.py lines 44-48):
`if not v.startswith('0x') or len(v) != 42: raise`.  Note: no check that the 40
trailing characters are hexadecimal. -/
def validateWalletAddress (v : String) : Bool :=
  pyStartsWith v "0x" && v.length == 42

/-- Pydantic validation of a whole WalletTransactionInput: the address
validator plus the action validator of every embedded Transaction. -/
def validWalletInput (w : WalletTransactionInput) : Bool :=
  validateWalletAddress w.wallet_address &&
    w.data.all fun pd => pd.transactions.all fun tx => validAction tx.action

/-- CategoryFeatures (src/app/utils/types.py lines 51-61): exactly these ten
declared fields, all defaulting to zero.  In particular there is NO field
named transaction_count. -/
structure CategoryFeatures where
  total_deposit_usd : ℚ := 0
  total_swap_volume : ℚ := 0
  num_deposits : ℕ := 0
  num_swaps : ℕ := 0
  avg_hold_time_days : ℚ := 0
  unique_pools : ℕ := 0
  total_withdraw_usd : ℚ := 0
  num_withdraws : ℕ := 0
  avg_transaction_size_usd : ℚ := 0
  transaction_frequency_days : ℚ := 0
deriving DecidableEq

/-- CategoryScore (src/app/utils/types.py lines 64-68).  `score` is a Python
float produced by the sigmoid normalization, modelled in `ℝ`. -/
structure CategoryScore where
  category : String
  score : ℝ
  transaction_count : ℕ
  features : CategoryFeatures

/-- WalletScoreSuccess (src/app/utils/types.py lines 71-84). -/
structure WalletScoreSuccess where
  wallet_address : String
  zscore : String
  timestamp : ℤ
  processing_time_ms : ℤ
  categories : List CategoryScore

/-- CategoryError (src/app/utils/types.py lines 87-90). -/
structure CategoryError where
  category : String
  error : String
  transaction_count : ℕ
deriving DecidableEq

/-- WalletScoreFailure (src/app/utils/types.py lines 93-98). -/
structure WalletScoreFailure where
  wallet_address : String
  error : String
  timestamp : ℤ
  processing_time_ms : ℤ
  categories : List CategoryError

/-- Outcome of processing one message: which output topic receives a record
(`_publish_success` vs `_publish_failure`). -/
inductive Outcome where
  | success : WalletScoreSuccess → Outcome
  | failure : WalletScoreFailure → Outcome

/-- Whether an outcome is a success record. -/
def Outcome.isSuccess : Outcome → Bool
  | .success _ => true
  | .failure _ => false

/-- Whether an outcome is a failure record. -/
def Outcome.isFailure : Outcome → Bool
  | .success _ => false
  | .failure _ => true

/-- Running statistics (src/app/services/kafka_service.py lines 44-51).
`start_time` is wall-clock bookkeeping used only for the uptime field and is
not modelled. -/
structure Stats where
  total_wallets_processed : ℕ
  successful_wallets : ℕ
  failed_wallets : ℕ
  total_processing_time_ms : ℤ
  last_processed_wallet : Option String
deriving DecidableEq

/-- The zeroed counters installed in `__init__`
(src/app/services/kafka_service.py lines 44-51). -/
def initialStats : Stats :=
  { total_wallets_processed := 0
    successful_wallets := 0
    failed_wallets := 0
    total_processing_time_ms := 0
    last_processed_wallet := none }

/-- `_update_stats` (src/app/services/kafka_service.py lines 263-273). -/
def updateStats (s : Stats) (success : Bool) (processing_time_ms : ℤ)
    (wallet_address : String) : Stats :=
  { total_wallets_processed := s.total_wallets_processed + 1
    total_processing_time_ms := s.total_processing_time_ms + processing_time_ms
    successful_wallets :=
      if success then s.successful_wallets + 1 else s.successful_wallets
    failed_wallets :=
      if success then s.failed_wallets else s.failed_wallets + 1
    last_processed_wallet := some wallet_address }

/-- The `average_processing_time_ms` computed by `get_stats`
(src/app/services/kafka_service.py lines 282-287). -/
def averageProcessingTimeMs (s : Stats) : ℚ :=
  if s.total_wallets_processed > 0 then
    (s.total_processing_time_ms : ℚ) / (s.total_wallets_processed : ℚ)
  else 0

/-- One processed message as seen by the statistics side-channel: outcome flag,
processing time, wallet address. -/
structure StatsEvent where
  success : Bool
  processing_time_ms : ℤ
  wallet_address : String
deriving DecidableEq

/-- Fold a sequence of processed messages into the statistics counters. -/
def runStats (events : List StatsEvent) : Stats :=
  events.foldl
    (fun s e => updateStats s e.success e.processing_time_ms e.wallet_address)
    initialStats

/-! ## The DEX scoring model (src/app/models/dex_model.py) -/

/-- One row of the DataFrame built by `_transactions_to_dataframe`
(src/app/models/dex_model.py lines 139-154).  `datetime` is the same unix
timestamp viewed as a time point, so it is not duplicated here. -/
structure Row where
  action : String
  timestamp : ℤ
  poolId : String
  token_in_amount : ℚ
  token_out_amount : ℚ
  token0_amount : ℚ
  token1_amount : ℚ
deriving DecidableEq

/-- Build one DataFrame row from a transaction: missing token fields contribute
amount 0 (src/app/models/dex_model.py lines 148-151). -/
def txRow (tx : Transaction) : Row :=
  { action := tx.action
    timestamp := tx.timestamp
    poolId := tx.poolId
    token_in_amount := ((tx.tokenIn.map TokenInfo.amountUSD).getD 0)
    token_out_amount := ((tx.tokenOut.map TokenInfo.amountUSD).getD 0)
    token0_amount := ((tx.token0.map TokenInfo.amountUSD).getD 0)
    token1_amount := ((tx.token1.map TokenInfo.amountUSD).getD 0) }

/-- The row list after `df.sort_values('timestamp')`
(src/app/models/dex_model.py line 157). -/
def dataframeRows (transactions : List Transaction) : List Row :=
  List.insertionSort (fun a b => a.timestamp ≤ b.timestamp)
    (transactions.map txRow)

/-- `_transactions_to_dataframe` (src/app/models/dex_model.py lines 135-158).
On an empty transaction list, `pd.DataFrame([])` has no columns at all and
`df.sort_values('timestamp')` raises `KeyError: 'timestamp'`; this is the only
failure of the conversion. -/
def transactionsToDataframe (transactions : List Transaction) :
    Except String (List Row) :=
  if transactions.isEmpty then
    Except.error "KeyError: timestamp"
  else
    Except.ok (dataframeRows transactions)

/-- `action in ['deposit', 'add_liquidity']`. -/
def isDepositAction (r : Row) : Bool :=
  r.action == "deposit" || r.action == "add_liquidity"

/-- `action == 'swap'`. -/
def isSwapAction (r : Row) : Bool :=
  r.action == "swap"

/-- `action in ['withdraw', 'remove_liquidity']`. -/
def isWithdrawAction (r : Row) : Bool :=
  r.action == "withdraw" || r.action == "remove_liquidity"

/-- `timedelta.days`: floor of the difference in seconds divided by 86400. -/
def timedeltaDays (seconds : ℤ) : ℤ :=
  Int.fdiv seconds 86400

/-- `_extract_dex_features` (src/app/models/dex_model.py lines 160-204),
evaluated at clock value `now` (unix seconds, `datetime.now()`).
For well-typed rows none of the guarded feature computations can raise, so the
`try`/`except` that would keep partial defaults never fires.  The inner
`if len(deposit_times) > 0` (line 189) is subsumed by the outer
`if features.num_deposits > 0` (line 187) since both count the same rows. -/
def extractDexFeatures (now : ℤ) (df : List Row) : CategoryFeatures :=
  let deposits := df.filter isDepositAction
  let swaps := df.filter isSwapAction
  let withdraws := df.filter isWithdrawAction
  let num_deposits := deposits.length
  let num_swaps := swaps.length
  let num_withdraws := withdraws.length
  let total_deposit_usd :=
    (deposits.map Row.token0_amount).sum + (deposits.map Row.token1_amount).sum
  let total_swap_volume := (swaps.map Row.token_in_amount).sum
  let total_withdraw_usd :=
    (withdraws.map Row.token0_amount).sum + (withdraws.map Row.token1_amount).sum
  let unique_pools := (df.map Row.poolId).dedup.length
  let total_volume := total_deposit_usd + total_swap_volume + total_withdraw_usd
  let avg_transaction_size_usd :=
    if df.length > 0 then total_volume / (df.length : ℚ) else 0
  let avg_hold_time_days :=
    if num_deposits > 0 then
      ((deposits.map fun r => ((timedeltaDays (now - r.timestamp) : ℚ))).sum) /
        (num_deposits : ℚ)
    else 0
  let transaction_frequency_days :=
    if df.length > 1 then
      let time_span :=
        timedeltaDays (((df.map Row.timestamp).max?.getD 0) -
          ((df.map Row.timestamp).min?.getD 0))
      if time_span > 0 then (time_span : ℚ) / (df.length : ℚ) else 0
    else 0
  { total_deposit_usd := total_deposit_usd
    total_swap_volume := total_swap_volume
    num_deposits := num_deposits
    num_swaps := num_swaps
    avg_hold_time_days := avg_hold_time_days
    unique_pools := unique_pools
    total_withdraw_usd := total_withdraw_usd
    num_withdraws := num_withdraws
    avg_transaction_size_usd := avg_transaction_size_usd
    transaction_frequency_days := transaction_frequency_days }

/-- Volume-based bonus against the volume thresholds
`whale=100000, high=10000, medium=1000, low=100` from `__init__`
(src/app/models/dex_model.py lines 28-33); used by both
`_calculate_lp_score` (lines 211-219, on `total_deposit_usd`) and
`_calculate_swap_score` (lines 264-272, on `total_swap_volume`). -/
def volumeBonus (v : ℚ) : ℚ :=
  if v >= 100000 then 300
  else if v >= 10000 then 200
  else if v >= 1000 then 150
  else if v >= 100 then 100
  else 0

/-- Frequency-based bonus against the frequency thresholds
`very_high=50, high=20, medium=5, low=1` (src/app/models/dex_model.py lines
35-40); used on `num_deposits` (lines 221-229) and `num_swaps`
(lines 274-282). -/
def frequencyBonus (n : ℕ) : ℚ :=
  if n >= 50 then 200
  else if n >= 20 then 150
  else if n >= 5 then 100
  else if n >= 1 then 50
  else 0

/-- Holding-time bonus against the thresholds `hodl=365, long=90, medium=30,
short=7` (src/app/models/dex_model.py lines 231-239). -/
def holdingBonus (h : ℚ) : ℚ :=
  if h >= 365 then 200
  else if h >= 90 then 150
  else if h >= 30 then 100
  else if h >= 7 then 50
  else 0

/-- Pool-diversity bonus (src/app/models/dex_model.py lines 241-247 and the
identical lines 293-299). -/
def poolDiversityBonus (p : ℕ) : ℚ :=
  if p >= 5 then 100
  else if p >= 3 then 50
  else if p >= 1 then 25
  else 0

/-- Liquidity-retention bonus (src/app/models/dex_model.py lines 249-252):
`retention_ratio * 100` when deposits exceed withdrawals. -/
def retentionBonus (deposit withdraw : ℚ) : ℚ :=
  if deposit > withdraw then (deposit - withdraw) / deposit * 100 else 0

/-- Transaction-size-consistency bonus (src/app/models/dex_model.py lines
284-291). -/
def sizeConsistencyBonus (avg : ℚ) : ℚ :=
  if avg > 0 then
    if avg >= 1000 then 100
    else if avg >= 100 then 75
    else if avg >= 10 then 50
    else 0
  else 0

/-- `_calculate_lp_score` (src/app/models/dex_model.py lines 206-257): the
five `score +=` blocks starting from 0, then `min(score, 1000)`. -/
def lpScore (features : CategoryFeatures) : ℚ :=
  min (volumeBonus features.total_deposit_usd +
    frequencyBonus features.num_deposits +
    holdingBonus features.avg_hold_time_days +
    poolDiversityBonus features.unique_pools +
    retentionBonus features.total_deposit_usd features.total_withdraw_usd) 1000

/-- `_calculate_swap_score` (src/app/models/dex_model.py lines 259-304): the
four `score +=` blocks starting from 0, then `min(score, 1000)`. -/
def swapScore (features : CategoryFeatures) : ℚ :=
  min (volumeBonus features.total_swap_volume +
    frequencyBonus features.num_swaps +
    sizeConsistencyBonus features.avg_transaction_size_usd +
    poolDiversityBonus features.unique_pools) 1000

/-- `_normalize_score` (src/app/models/dex_model.py lines 322-326):
`1000 / (1 + np.exp(-(score - 500) / 200))`, clamped to `[0, 1000]`. -/
noncomputable def normalizeScore (score : ℚ) : ℝ :=
  max 0 (min 1000 (1000 / (1 + Real.exp (-(((score : ℝ)) - 500) / 200))))

/-- Python `round(x, 2)`: round to two decimal places (ties modelled upward,
see the file header). -/
noncomputable def round2 (x : ℝ) : ℝ :=
  ((round (100 * x) : ℤ) : ℝ) / 100

/-- `_calculate_dex_score` (src/app/models/dex_model.py lines 92-133):
DataFrame conversion, feature extraction, LP/swap scores combined with the
weights 0.6 / 0.4 from `__init__` (lines 20-21), sigmoid normalization and
rounding to two decimals.  Errors propagate (re-raised on line 133). -/
noncomputable def calculateDexScore (now : ℤ) (transactions : List Transaction) :
    Except String CategoryScore :=
  match transactionsToDataframe transactions with
  | Except.error e => Except.error e
  | Except.ok df =>
      let features := extractDexFeatures now df
      let combined : ℚ := lpScore features * (6 / 10) + swapScore features * (4 / 10)
      Except.ok
        { category := "dexes"
          score := round2 (normalizeScore combined)
          transaction_count := transactions.length
          features := features }

/-- The distinct poolId count of a transaction list
(`len(set(tx.poolId for tx in protocol_data.transactions))`,
src/app/models/dex_model.py line 310). -/
def uniquePoolCount (transactions : List Transaction) : ℕ :=
  (transactions.map Transaction.poolId).dedup.length

/-- `_calculate_basic_protocol_score` (src/app/models/dex_model.py lines
306-320).  Line 309 executes `features.transaction_count = len(...)` on a
fresh `CategoryFeatures`; `transaction_count` is not one of the ten declared
fields of CategoryFeatures (src/app/utils/types.py lines 51-61), and pydantic's
`BaseModel.__setattr__` raises `ValueError` when assigning a name that is not a
declared field.  The method therefore raises unconditionally and lines 310-320
(unique-pool count, `min(count * 10 + pools * 5, 500)` and the CategoryScore
construction) are dead code. -/
def calculateBasicProtocolScore (_protocol_data : ProtocolData) :
    Except String CategoryScore :=
  Except.error "ValueError: CategoryFeatures object has no field transaction_count"

/-- Modelled from the spec: the score `_calculate_basic_protocol_score` is
documented to produce for a non-dexes bucket —
`min(10 * transaction_count + 5 * unique_pools, 500)`, rounded to 2 decimals
(a no-op on this integer value).  This mirrors the dead lines 310-313 and is
used only to state what the code diverges from. -/
def basicProtocolScoreSpec (protocol_data : ProtocolData) : ℚ :=
  min (10 * (protocol_data.transactions.length : ℚ) +
    5 * (uniquePoolCount protocol_data.transactions : ℚ)) 500

/-- The per-bucket loop body of `process_wallet_data`
(src/app/models/dex_model.py lines 64-81), carried out sequentially with the
accumulated category-score list, weighted total and total weight; the first
bucket whose scorer raises aborts the whole computation (lines 88-90). -/
noncomputable def processBuckets (now : ℤ) (acc : List CategoryScore)
    (total_score : ℝ) (total_weight : ℚ) :
    List ProtocolData → Except String (List CategoryScore × ℝ × ℚ)
  | [] => Except.ok (acc, total_score, total_weight)
  | pd :: rest =>
      if pyLower pd.protocolType == "dexes" then
        match calculateDexScore now pd.transactions with
        | Except.error e => Except.error e
        | Except.ok cs =>
            processBuckets now (acc ++ [cs]) (total_score + cs.score * 1)
              (total_weight + 1) rest
      else
        match calculateBasicProtocolScore pd with
        | Except.error e => Except.error e
        | Except.ok cs =>
            processBuckets now (acc ++ [cs]) (total_score + cs.score * (1 / 2))
              (total_weight + (1 / 2)) rest

/-- `process_wallet_data` (src/app/models/dex_model.py lines 49-90): run every
bucket, then `overall_score = total_score / total_weight if total_weight > 0
else 0.0`. -/
noncomputable def processWalletData (now : ℤ) (wallet_data : List ProtocolData) :
    Except String (List CategoryScore × ℝ) :=
  match processBuckets now [] 0 0 wallet_data with
  | Except.error e => Except.error e
  | Except.ok (category_scores, total_score, total_weight) =>
      Except.ok (category_scores,
        if total_weight > 0 then total_score / ((total_weight : ℚ) : ℝ) else 0)

/-! ## Message processing (src/app/services/kafka_service.py) -/

/-- Decimal digit characters of a natural number, most significant first
(rendering of a Python int by `str`/`format`). -/
def natDecChars (n : ℕ) : List Char :=
  if n = 0 then ['0']
  else (Nat.digits 10 n).reverse.map fun d => Char.ofNat (48 + d)

/-- Left-pad a digit list with zeros to length 18 (the fractional part of a
`%.18f` rendering). -/
def padTo18 (l : List Char) : List Char :=
  List.replicate (18 - l.length) '0' ++ l

/-- The f-string `f"{overall_score:.18f}"`
(src/app/services/kafka_service.py line 153): fixed-point rendering of the
score with exactly 18 digits after the decimal point, never scientific
notation.  The float is modelled by the real it denotes; rounding at the 18th
fractional digit is round-to-nearest (ties as per the file header). -/
noncomputable def formatFixed18 (x : ℝ) : String :=
  let m : ℤ := round (x * 10 ^ 18)
  if m < 0 then
    String.mk ('-' :: (natDecChars ((-m).toNat / 10 ^ 18) ++
      '.' :: padTo18 (natDecChars ((-m).toNat % 10 ^ 18))))
  else
    String.mk (natDecChars (m.toNat / 10 ^ 18) ++
      '.' :: padTo18 (natDecChars (m.toNat % 10 ^ 18)))

/-- `_create_error_categories` (src/app/services/kafka_service.py lines
198-212): one CategoryError per input bucket, best effort. -/
def createErrorCategories (data : List ProtocolData) : List CategoryError :=
  data.map fun pd =>
    { category := pd.protocolType
      error := "Failed to process"
      transaction_count := pd.transactions.length }

/-- `_process_message` (src/app/services/kafka_service.py lines 128-196) for a
message that deserialized into `w`: pydantic validation, scoring, then either a
WalletScoreSuccess with the 18-digit zscore string or a WalletScoreFailure.
`time.time()` is modelled by `now` and the elapsed-time measurement by `0`;
publishing is modelled by returning the record. -/
noncomputable def processMessage (now : ℤ) (w : WalletTransactionInput) : Outcome :=
  if validWalletInput w then
    match processWalletData now w.data with
    | Except.ok (category_scores, overall_score) =>
        Outcome.success
          { wallet_address := w.wallet_address
            zscore := formatFixed18 overall_score
            timestamp := now
            processing_time_ms := 0
            categories := category_scores }
    | Except.error e =>
        Outcome.failure
          { wallet_address := w.wallet_address
            error := "Processing error: " ++ e
            timestamp := now
            processing_time_ms := 0
            categories := createErrorCategories w.data }
  else
    Outcome.failure
      { wallet_address := "unknown"
        error := "Validation error"
        timestamp := now
        processing_time_ms := 0
        categories := createErrorCategories w.data }

/-! ## Statistics (claim C8) -/

theorem statsFold_spec (events : List StatsEvent) (s : Stats) :
    (events.foldl
        (fun s e => updateStats s e.success e.processing_time_ms e.wallet_address)
        s).total_wallets_processed = s.total_wallets_processed + events.length ∧
    (events.foldl
        (fun s e => updateStats s e.success e.processing_time_ms e.wallet_address)
        s).successful_wallets +
      (events.foldl
        (fun s e => updateStats s e.success e.processing_time_ms e.wallet_address)
        s).failed_wallets =
      s.successful_wallets + s.failed_wallets + events.length ∧
    (events.foldl
        (fun s e => updateStats s e.success e.processing_time_ms e.wallet_address)
        s).total_processing_time_ms =
      s.total_processing_time_ms + (events.map StatsEvent.processing_time_ms).sum := by
  induction events generalizing s with
  | nil => simp
  | cons e rest ih =>
      obtain ⟨h1, h2, h3⟩ := ih (updateStats s e.success e.processing_time_ms e.wallet_address)
      refine ⟨?_, ?_, ?_⟩
      · simp only [List.foldl_cons, List.length_cons]
        rw [h1]
        simp only [updateStats]
        omega
      · simp only [List.foldl_cons, List.length_cons]
        rw [h2]
        simp only [updateStats]
        split <;> omega
      · simp only [List.foldl_cons, List.map_cons, List.sum_cons]
        rw [h3]
        simp only [updateStats]
        ring

/-- Claim C8: starting from the zeroed counters, after any sequence of
processed messages `successful_wallets + failed_wallets =
total_wallets_processed`; moreover the total count is the number of messages,
the cumulative time is the sum of the per-message times, and the
`average_processing_time_ms` reported by `get_stats` is the cumulative
processing time divided by the total count when that count is positive and
`0.0` otherwise. -/
theorem c8_stats_invariant (events : List StatsEvent) :
    (runStats events).successful_wallets + (runStats events).failed_wallets =
      (runStats events).total_wallets_processed ∧
    (runStats events).total_wallets_processed = events.length ∧
    (runStats events).total_processing_time_ms =
      (events.map StatsEvent.processing_time_ms).sum ∧
    averageProcessingTimeMs (runStats events) =
      (if 0 < events.length then
        (((events.map StatsEvent.processing_time_ms).sum : ℚ)) / (events.length : ℚ)
      else 0) := by
  obtain ⟨h1, h2, h3⟩ := statsFold_spec events initialStats
  have ht : (runStats events).total_wallets_processed = events.length := by
    rw [runStats, h1]
    simp [initialStats]
  have hs : (runStats events).successful_wallets + (runStats events).failed_wallets =
      (runStats events).total_wallets_processed := by
    rw [runStats, h2, h1]
    simp [initialStats]
  have hp : (runStats events).total_processing_time_ms =
      (events.map StatsEvent.processing_time_ms).sum := by
    rw [runStats, h3]
    simp [initialStats]
  refine ⟨hs, ht, hp, ?_⟩
  simp [averageProcessingTimeMs, ht, hp]

/-! ## The basic protocol score (claim C2) -/

/-- A concrete non-dexes bucket: three `deposit` transactions across two
distinct pools (the end-to-end scenario C of the spec). -/
def lendingBucket : ProtocolData :=
  { protocolType := "lending"
    transactions :=
      [ { document_id := "d1", action := "deposit", timestamp := 1703980800
          caller := "c", protocol := "lending_p", poolId := "pool_a"
          poolName := "Pool A" }
      , { document_id := "d2", action := "deposit", timestamp := 1703980900
          caller := "c", protocol := "lending_p", poolId := "pool_a"
          poolName := "Pool A" }
      , { document_id := "d3", action := "deposit", timestamp := 1703981000
          caller := "c", protocol := "lending_p", poolId := "pool_b"
          poolName := "Pool B" } ] }

/-- Claim C2: the code does not do what the claim says.  On the concrete
non-dexes bucket with 3 transactions across 2 unique pools,
`_calculate_basic_protocol_score` raises the pydantic `ValueError` caused by
assigning the undeclared field `transaction_count` (line 309), instead of
returning the documented `min(10 * 3 + 5 * 2, 500) = 40`; the spec-modelled
formula on the same bucket is indeed 40. -/
theorem c2_basic_protocol_score_raises :
    calculateBasicProtocolScore lendingBucket =
      Except.error "ValueError: CategoryFeatures object has no field transaction_count" ∧
    basicProtocolScoreSpec lendingBucket = 40 := by
  constructor
  · rfl
  · have hu : uniquePoolCount lendingBucket.transactions = 2 := rfl
    have hl : lendingBucket.transactions.length = 3 := rfl
    rw [basicProtocolScoreSpec, hu, hl]
    norm_num

/-! ## LP-score monotonicity in total_deposit_usd (claim C7) -/

theorem volumeBonus_mono {d1 d2 : ℚ} (h : d1 ≤ d2) :
    volumeBonus d1 ≤ volumeBonus d2 := by
  unfold volumeBonus
  split_ifs <;> linarith

theorem retentionBonus_mono_left {w d1 d2 : ℚ} (hw : 0 ≤ w) (h : d1 ≤ d2) :
    retentionBonus d1 w ≤ retentionBonus d2 w := by
  unfold retentionBonus
  split_ifs with h1 h2 h2
  · have hd1 : 0 < d1 := lt_of_le_of_lt hw h1
    have hd2 : 0 < d2 := lt_of_le_of_lt hw h2
    rw [div_mul_eq_mul_div, div_mul_eq_mul_div, div_le_div_iff₀ hd1 hd2]
    nlinarith [mul_le_mul_of_nonneg_left h hw]
  · exact absurd (lt_of_lt_of_le h1 h) h2
  · have hd2 : 0 < d2 := lt_of_le_of_lt hw h2
    have : (0:ℚ) ≤ (d2 - w) / d2 := div_nonneg (by linarith) hd2.le
    nlinarith
  · exact le_rfl

/-- Features with `total_deposit_usd` below the low volume threshold and a
negative `total_withdraw_usd`; all other fields at their defaults. -/
def c7LowDeposit : CategoryFeatures :=
  { total_deposit_usd := 50, total_withdraw_usd := -400 }

/-- Claim C7 as stated is false: holding every other CategoryFeatures field
fixed (including a negative `total_withdraw_usd`, which the float-typed field
admits), raising `total_deposit_usd` from 50 (below the low threshold 100) to
100 (the low tier) drops the LP score from 900 to 600, because the retention
bonus `100 * (deposit - withdraw) / deposit` shrinks as `deposit` grows when
`withdraw < 0`. -/
theorem c7_counterexample :
    lpScore c7LowDeposit = 900 ∧
    lpScore { c7LowDeposit with total_deposit_usd := 100 } = 600 ∧
    lpScore { c7LowDeposit with total_deposit_usd := 100 } < lpScore c7LowDeposit := by
  have h1 : lpScore c7LowDeposit = 900 := by
    norm_num [lpScore, volumeBonus, frequencyBonus, holdingBonus,
      poolDiversityBonus, retentionBonus, c7LowDeposit, min_def]
  have h2 : lpScore { c7LowDeposit with total_deposit_usd := 100 } = 600 := by
    norm_num [lpScore, volumeBonus, frequencyBonus, holdingBonus,
      poolDiversityBonus, retentionBonus, c7LowDeposit, min_def]
  refine ⟨h1, h2, ?_⟩
  rw [h1, h2]
  norm_num

/-- Claim C7 (amended): with `total_withdraw_usd` non-negative — as it is for
any features extracted from non-negative USD amounts — and all other fields
held fixed, increasing `total_deposit_usd` never decreases the LP score; in
particular moving it from below the low threshold to at or above any higher
tier does not. -/
theorem c7_lp_score_monotone (f : CategoryFeatures) (d1 d2 : ℚ)
    (hw : 0 ≤ f.total_withdraw_usd) (h : d1 ≤ d2) :
    lpScore { f with total_deposit_usd := d1 } ≤
      lpScore { f with total_deposit_usd := d2 } := by
  simp only [lpScore]
  refine min_le_min (by
    have hv := volumeBonus_mono h
    have hr := retentionBonus_mono_left hw h
    linarith) le_rfl

/-- Witness for C7: the amended monotonicity applied at concrete inputs
(all-default features, deposit raised from 50 to 100000). -/
theorem c7_lp_score_monotone_witness :
    lpScore { ({} : CategoryFeatures) with total_deposit_usd := 50 } ≤
      lpScore { ({} : CategoryFeatures) with total_deposit_usd := 100000 } :=
  c7_lp_score_monotone {} 50 100000 (by simp) (by norm_num)

/-! ## Feature extraction (claim C4) -/

theorem dataframeRows_perm (transactions : List Transaction) :
    (dataframeRows transactions).Perm (transactions.map txRow) :=
  List.perm_insertionSort _ _

theorem extract_num_swaps (now : ℤ) (txs : List Transaction) :
    (extractDexFeatures now (dataframeRows txs)).num_swaps =
      txs.countP fun tx => tx.action == "swap" := by
  simp only [extractDexFeatures]
  rw [← List.countP_eq_length_filter, (dataframeRows_perm txs).countP_eq,
    List.countP_map]
  rfl

theorem extract_num_deposits (now : ℤ) (txs : List Transaction) :
    (extractDexFeatures now (dataframeRows txs)).num_deposits =
      txs.countP fun tx => tx.action == "deposit" || tx.action == "add_liquidity" := by
  simp only [extractDexFeatures]
  rw [← List.countP_eq_length_filter, (dataframeRows_perm txs).countP_eq,
    List.countP_map]
  rfl

theorem extract_total_swap_volume (now : ℤ) (txs : List Transaction) :
    (extractDexFeatures now (dataframeRows txs)).total_swap_volume =
      ((txs.filter fun tx => tx.action == "swap").map
        fun tx => (tx.tokenIn.map TokenInfo.amountUSD).getD 0).sum := by
  simp only [extractDexFeatures]
  rw [(((dataframeRows_perm txs).filter isSwapAction).map Row.token_in_amount).sum_eq,
    List.filter_map, List.map_map]
  rfl

theorem extract_total_deposit_usd (now : ℤ) (txs : List Transaction) :
    (extractDexFeatures now (dataframeRows txs)).total_deposit_usd =
      ((txs.filter fun tx => tx.action == "deposit" || tx.action == "add_liquidity").map
        fun tx => (tx.token0.map TokenInfo.amountUSD).getD 0 +
          (tx.token1.map TokenInfo.amountUSD).getD 0).sum := by
  simp only [extractDexFeatures]
  rw [List.sum_map_add,
    (((dataframeRows_perm txs).filter isDepositAction).map Row.token0_amount).sum_eq,
    (((dataframeRows_perm txs).filter isDepositAction).map Row.token1_amount).sum_eq,
    List.filter_map, List.map_map, List.map_map]
  rfl

theorem extract_unique_pools (now : ℤ) (txs : List Transaction) :
    (extractDexFeatures now (dataframeRows txs)).unique_pools =
      (txs.map Transaction.poolId).toFinset.card := by
  simp only [extractDexFeatures]
  rw [← List.card_toFinset]
  congr 1
  have h : ((dataframeRows txs).map Row.poolId).Perm ((txs.map txRow).map Row.poolId) :=
    (dataframeRows_perm txs).map Row.poolId
  rw [List.toFinset_eq_of_perm _ _ h, List.map_map]
  rfl

/-- The swap transaction of end-to-end scenario A: `tokenIn.amountUSD = 1000`,
`tokenOut.amountUSD = 1000`. -/
def scenarioSwapTx : Transaction :=
  { document_id := "507f1f77bcf86cd799439011"
    action := "swap"
    timestamp := 1703980800
    caller := "0x742d35Cc6634C0532925a3b8D4C9db96590e4265"
    protocol := "uniswap_v3"
    poolId := "0x88e6a0c2ddd26feeb64f039a2c41296fcb3f5640"
    poolName := "Uniswap V3 USDC/WETH 0.05"
    tokenIn := some
      { amount := 1000000000, amountUSD := 1000
        address := "0xa0b86a33e6c3d4c3e6c3d4c3e6c3d4c3e6c3d4c3", symbol := "USDC" }
    tokenOut := some
      { amount := 500000000000000000, amountUSD := 1000
        address := "0xc02aaa39b223fe8d0a0e5c4f27ead9083c756cc2", symbol := "WETH" } }

/-- The deposit transaction of end-to-end scenario A: `token0.amountUSD = 500`,
`token1.amountUSD = 500`, same pool as the swap. -/
def scenarioDepositTx : Transaction :=
  { document_id := "507f1f77bcf86cd799439012"
    action := "deposit"
    timestamp := 1703980900
    caller := "0x742d35Cc6634C0532925a3b8D4C9db96590e4265"
    protocol := "uniswap_v3"
    poolId := "0x88e6a0c2ddd26feeb64f039a2c41296fcb3f5640"
    poolName := "Uniswap V3 USDC/WETH 0.05"
    token0 := some
      { amount := 500000000, amountUSD := 500
        address := "0xa0b86a33e6c3d4c3e6c3d4c3e6c3d4c3e6c3d4c3", symbol := "USDC" }
    token1 := some
      { amount := 250000000000000000, amountUSD := 500
        address := "0xc02aaa39b223fe8d0a0e5c4f27ead9083c756cc2", symbol := "WETH" } }

/-- The transaction list of scenario A. -/
def scenarioTransactions : List Transaction := [scenarioSwapTx, scenarioDepositTx]

/-- Claim C4: for every dexes bucket, feature extraction computes `num_swaps`
as the count of swap actions, `num_deposits` as the count of
deposit/add_liquidity actions, `total_swap_volume` as the sum of
`tokenIn.amountUSD` over swaps, `total_deposit_usd` as the sum of
`token0.amountUSD + token1.amountUSD` over deposit/add_liquidity transactions
(missing token fields contributing 0), and `unique_pools` as the number of
distinct poolId values; on the concrete scenario-A input (one swap with
tokenIn 1000 USD and one deposit with token0 = token1 = 500 USD on the same
pool) the features are 1, 1, 1000, 1000, 1. -/
theorem c4_feature_extraction :
    (∀ (now : ℤ) (txs : List Transaction),
      (extractDexFeatures now (dataframeRows txs)).num_swaps =
        (txs.countP fun tx => tx.action == "swap") ∧
      (extractDexFeatures now (dataframeRows txs)).num_deposits =
        (txs.countP fun tx => tx.action == "deposit" || tx.action == "add_liquidity") ∧
      (extractDexFeatures now (dataframeRows txs)).total_swap_volume =
        ((txs.filter fun tx => tx.action == "swap").map
          fun tx => (tx.tokenIn.map TokenInfo.amountUSD).getD 0).sum ∧
      (extractDexFeatures now (dataframeRows txs)).total_deposit_usd =
        ((txs.filter fun tx => tx.action == "deposit" || tx.action == "add_liquidity").map
          fun tx => (tx.token0.map TokenInfo.amountUSD).getD 0 +
            (tx.token1.map TokenInfo.amountUSD).getD 0).sum ∧
      (extractDexFeatures now (dataframeRows txs)).unique_pools =
        (txs.map Transaction.poolId).toFinset.card) ∧
    (extractDexFeatures 1704067200 (dataframeRows scenarioTransactions)).num_swaps = 1 ∧
    (extractDexFeatures 1704067200 (dataframeRows scenarioTransactions)).num_deposits = 1 ∧
    (extractDexFeatures 1704067200 (dataframeRows scenarioTransactions)).total_swap_volume = 1000 ∧
    (extractDexFeatures 1704067200 (dataframeRows scenarioTransactions)).total_deposit_usd = 1000 ∧
    (extractDexFeatures 1704067200 (dataframeRows scenarioTransactions)).unique_pools = 1 := by
  refine ⟨fun now txs =>
    ⟨extract_num_swaps now txs, extract_num_deposits now txs,
      extract_total_swap_volume now txs, extract_total_deposit_usd now txs,
      extract_unique_pools now txs⟩, ?_, ?_, ?_, ?_, ?_⟩
  · rfl
  · rfl
  · rw [extract_total_swap_volume]
    have hf : (scenarioTransactions.filter fun tx => tx.action == "swap") =
        [scenarioSwapTx] := rfl
    rw [hf]
    norm_num [scenarioSwapTx]
  · rw [extract_total_deposit_usd]
    have hf : (scenarioTransactions.filter fun tx =>
        tx.action == "deposit" || tx.action == "add_liquidity") =
        [scenarioDepositTx] := rfl
    rw [hf]
    norm_num [scenarioDepositTx]
  · rfl

/-! ## Score bounds and wallet aggregation (claims C1 and C3) -/

theorem normalizeScore_nonneg (c : ℚ) : 0 ≤ normalizeScore c :=
  le_max_left 0 _

theorem normalizeScore_le_1000 (c : ℚ) : normalizeScore c ≤ 1000 :=
  max_le (by norm_num) (min_le_left _ _)

theorem round2_nonneg {x : ℝ} (hx : 0 ≤ x) : 0 ≤ round2 x := by
  unfold round2
  have h : (0:ℤ) ≤ round (100 * x) := by
    rw [round_eq]
    exact Int.le_floor.mpr (by push_cast; linarith)
  positivity

theorem round2_le_1000 {x : ℝ} (hx : x ≤ 1000) : round2 x ≤ 1000 := by
  unfold round2
  have h : round (100 * x) ≤ 100000 := by
    rw [round_eq]
    exact Int.floor_le_iff.mpr (by push_cast; linarith)
  rw [div_le_iff₀ (by norm_num : (0:ℝ) < 100)]
  calc ((round (100 * x) : ℤ) : ℝ) ≤ ((100000 : ℤ) : ℝ) := by exact_mod_cast h
    _ = 1000 * 100 := by norm_num

theorem calculateDexScore_score_bounds (now : ℤ) (txs : List Transaction)
    (cs : CategoryScore) (h : calculateDexScore now txs = Except.ok cs) :
    0 ≤ cs.score ∧ cs.score ≤ 1000 := by
  simp only [calculateDexScore] at h
  cases hdf : transactionsToDataframe txs with
  | error e => rw [hdf] at h; exact absurd h (by simp)
  | ok df =>
      rw [hdf] at h
      injection h with h2
      subst h2
      exact ⟨round2_nonneg (normalizeScore_nonneg _),
        round2_le_1000 (normalizeScore_le_1000 _)⟩

/-- The aggregation weight of one bucket: 1.0 for a "dexes" bucket, 0.5 for
any other protocolType (src/app/models/dex_model.py lines 70-72 and 79-81). -/
def bucketWeight (pd : ProtocolData) : ℚ :=
  if pyLower pd.protocolType == "dexes" then 1 else 1 / 2

/-- The total aggregation weight of a bucket list (`total_weight`). -/
def bucketWeightSum (bs : List ProtocolData) : ℚ :=
  (bs.map bucketWeight).sum

/-- The weighted sum of the per-bucket category scores (`total_score`). -/
def weightedScoreTotal (bs : List ProtocolData) (l : List CategoryScore) : ℝ :=
  ((bs.zip l).map fun p => ((bucketWeight p.1 : ℚ) : ℝ) * p.2.score).sum

theorem bucketWeight_pos (pd : ProtocolData) : 0 < bucketWeight pd := by
  unfold bucketWeight
  split <;> norm_num

theorem bucketWeightSum_nonneg (bs : List ProtocolData) : 0 ≤ bucketWeightSum bs :=
  List.sum_nonneg fun x hx => by
    obtain ⟨pd, _, rfl⟩ := List.mem_map.mp hx
    exact (bucketWeight_pos pd).le

theorem bucketWeightSum_pos {bs : List ProtocolData} (h : bs ≠ []) :
    0 < bucketWeightSum bs := by
  cases bs with
  | nil => exact absurd rfl h
  | cons b rest =>
      have h1 : bucketWeightSum (b :: rest) = bucketWeight b + bucketWeightSum rest := by
        simp [bucketWeightSum]
      rw [h1]
      have := bucketWeight_pos b
      have := bucketWeightSum_nonneg rest
      linarith

theorem weightedScoreTotal_bounds (bs : List ProtocolData) (l : List CategoryScore)
    (hb : ∀ c ∈ l, 0 ≤ c.score ∧ c.score ≤ 1000) :
    0 ≤ weightedScoreTotal bs l ∧
      weightedScoreTotal bs l ≤ 1000 * ((bucketWeightSum bs : ℚ) : ℝ) := by
  induction bs generalizing l with
  | nil =>
      simp [weightedScoreTotal, bucketWeightSum]
  | cons b rest ih =>
      cases l with
      | nil =>
          have hw : (0:ℝ) ≤ ((bucketWeightSum (b :: rest) : ℚ) : ℝ) := by
            exact_mod_cast bucketWeightSum_nonneg (b :: rest)
          constructor
          · simp [weightedScoreTotal]
          · simp only [weightedScoreTotal, List.zip_nil_right, List.map_nil,
              List.sum_nil]
            nlinarith
      | cons c cl =>
          obtain ⟨ih1, ih2⟩ := ih cl fun x hx => hb x (List.mem_cons_of_mem c hx)
          obtain ⟨hc1, hc2⟩ := hb c (List.mem_cons_self c cl)
          have hwpos : (0:ℝ) < ((bucketWeight b : ℚ) : ℝ) := by
            exact_mod_cast bucketWeight_pos b
          have hz1 : weightedScoreTotal (b :: rest) (c :: cl) =
              ((bucketWeight b : ℚ) : ℝ) * c.score + weightedScoreTotal rest cl := by
            simp [weightedScoreTotal]
          have hz2 : ((bucketWeightSum (b :: rest) : ℚ) : ℝ) =
              ((bucketWeight b : ℚ) : ℝ) + ((bucketWeightSum rest : ℚ) : ℝ) := by
            push_cast [bucketWeightSum]
            simp
          rw [hz1, hz2]
          constructor
          · nlinarith
          · nlinarith

theorem processBuckets_ok_spec (now : ℤ) (bs : List ProtocolData) :
    ∀ (acc : List CategoryScore) (tS : ℝ) (tW : ℚ) (cs : List CategoryScore)
      (tS' : ℝ) (tW' : ℚ),
      processBuckets now acc tS tW bs = Except.ok (cs, tS', tW') →
      ∃ l, cs = acc ++ l ∧ l.length = bs.length ∧
        (∀ c ∈ l, 0 ≤ c.score ∧ c.score ≤ 1000) ∧
        tS' = tS + weightedScoreTotal bs l ∧
        tW' = tW + bucketWeightSum bs := by
  induction bs with
  | nil =>
      intro acc tS tW cs tS' tW' h
      simp only [processBuckets, Except.ok.injEq, Prod.mk.injEq] at h
      obtain ⟨rfl, rfl, rfl⟩ := h
      refine ⟨[], by simp, by simp, by simp, ?_, ?_⟩
      · simp [weightedScoreTotal]
      · simp [bucketWeightSum]
  | cons b rest ih =>
      intro acc tS tW cs tS' tW' h
      simp only [processBuckets] at h
      by_cases hb : (pyLower b.protocolType == "dexes") = true
      · rw [if_pos hb] at h
        cases hd : calculateDexScore now b.transactions with
        | error e => rw [hd] at h; exact absurd h (by simp)
        | ok c =>
            rw [hd] at h
            obtain ⟨l, rfl, hlen, hbnd, hts, htw⟩ :=
              ih (acc ++ [c]) (tS + c.score * 1) (tW + 1) cs tS' tW' h
            have hwb : bucketWeight b = 1 := by simp [bucketWeight, hb]
            refine ⟨c :: l, by simp, by simp [hlen], ?_, ?_, ?_⟩
            · intro x hx
              rcases List.mem_cons.mp hx with rfl | hx2
              · exact calculateDexScore_score_bounds now b.transactions x hd
              · exact hbnd x hx2
            · have hzip : weightedScoreTotal (b :: rest) (c :: l) =
                  ((bucketWeight b : ℚ) : ℝ) * c.score + weightedScoreTotal rest l := by
                simp [weightedScoreTotal]
              rw [hts, hzip, hwb]
              push_cast
              ring
            · have hsum : bucketWeightSum (b :: rest) =
                  bucketWeight b + bucketWeightSum rest := by
                simp [bucketWeightSum]
              rw [htw, hsum, hwb]
              ring
      · rw [if_neg hb] at h
        simp [calculateBasicProtocolScore] at h

theorem processWalletData_ok_spec (now : ℤ) (bs : List ProtocolData)
    (cs : List CategoryScore) (overall : ℝ)
    (h : processWalletData now bs = Except.ok (cs, overall)) :
    cs.length = bs.length ∧
    (∀ c ∈ cs, 0 ≤ c.score ∧ c.score ≤ 1000) ∧
    overall = (if 0 < bucketWeightSum bs then
      weightedScoreTotal bs cs / ((bucketWeightSum bs : ℚ) : ℝ) else 0) := by
  simp only [processWalletData] at h
  cases hpb : processBuckets now [] 0 0 bs with
  | error e => rw [hpb] at h; exact absurd h (by simp)
  | ok trip =>
      obtain ⟨cs0, tS, tW⟩ := trip
      rw [hpb] at h
      simp only [Except.ok.injEq, Prod.mk.injEq] at h
      obtain ⟨rfl, rfl⟩ := h
      obtain ⟨l, hl, hlen, hbnd, hts, htw⟩ :=
        processBuckets_ok_spec now bs [] 0 0 cs0 tS tW hpb
      simp only [List.nil_append] at hl
      have htw' : tW = bucketWeightSum bs := by rw [htw]; ring
      have hts' : tS = weightedScoreTotal bs cs0 := by rw [hts, hl]; ring
      refine ⟨by rw [hl]; exact hlen, by rw [hl]; exact hbnd, ?_⟩
      rw [htw', hts']

theorem processWalletData_overall_bounds (now : ℤ) (bs : List ProtocolData)
    (cs : List CategoryScore) (overall : ℝ)
    (h : processWalletData now bs = Except.ok (cs, overall)) :
    0 ≤ overall ∧ overall ≤ 1000 := by
  obtain ⟨hlen, hbnd, hov⟩ := processWalletData_ok_spec now bs cs overall h
  obtain ⟨hw1, hw2⟩ := weightedScoreTotal_bounds bs cs hbnd
  rw [hov]
  by_cases hpos : 0 < bucketWeightSum bs
  · rw [if_pos hpos]
    have hposR : (0:ℝ) < ((bucketWeightSum bs : ℚ) : ℝ) := by exact_mod_cast hpos
    constructor
    · exact div_nonneg hw1 hposR.le
    · rw [div_le_iff₀ hposR]
      linarith
  · rw [if_neg hpos]
    norm_num

/-- Claim C1: for every valid WalletTransactionInput on which
`process_wallet_data` returns (rather than raises), the overall wallet score
and the score of every produced CategoryScore lie in the closed interval
`[0, 1000]`. -/
theorem c1_scores_in_range (now : ℤ) (w : WalletTransactionInput)
    (hv : validWalletInput w = true) (cs : List CategoryScore) (overall : ℝ)
    (h : processWalletData now w.data = Except.ok (cs, overall)) :
    (0 ≤ overall ∧ overall ≤ 1000) ∧ ∀ c ∈ cs, 0 ≤ c.score ∧ c.score ≤ 1000 := by
  obtain ⟨hlen, hbnd, hov⟩ := processWalletData_ok_spec now w.data cs overall h
  exact ⟨processWalletData_overall_bounds now w.data cs overall h, hbnd⟩

/-- A syntactically valid wallet input with no protocol buckets. -/
def emptyWallet : WalletTransactionInput :=
  { wallet_address := "0x0000000000000000000000000000000000000000"
    data := [] }

/-- Witness for C1: the empty wallet is valid, scores to `([], 0.0)`, and the
bounds hold there. -/
theorem c1_scores_in_range_witness :
    (0 ≤ (0:ℝ) ∧ (0:ℝ) ≤ 1000) ∧
      ∀ c ∈ ([] : List CategoryScore), 0 ≤ c.score ∧ c.score ≤ 1000 :=
  c1_scores_in_range 0 emptyWallet (by decide) [] 0 rfl

/-- Claim C3 as stated is false: a wallet whose bucket list holds one
non-"dexes" bucket makes `process_wallet_data` raise (via the
`_calculate_basic_protocol_score` ValueError) instead of returning the
weighted average `(0.5 * 40) / 0.5 = 40` the claim prescribes. -/
theorem c3_counterexample :
    processWalletData 0 [lendingBucket] =
      Except.error "ValueError: CategoryFeatures object has no field transaction_count" :=
  rfl

/-- Claim C3 (amended): whenever `process_wallet_data` returns — i.e. every
bucket scores without raising, which in the current code restricts the
non-empty case to "dexes" buckets — the overall score equals the sum of
per-bucket scores weighted 1.0 for "dexes" buckets and 0.5 for all others,
divided by the sum of those weights; an empty bucket list yields overall 0.0
and an empty category list. -/
theorem c3_weighted_aggregation (now : ℤ) (bs : List ProtocolData)
    (cs : List CategoryScore) (overall : ℝ)
    (h : processWalletData now bs = Except.ok (cs, overall)) :
    cs.length = bs.length ∧
    (bs = [] → cs = [] ∧ overall = 0) ∧
    (bs ≠ [] →
      overall = weightedScoreTotal bs cs / ((bucketWeightSum bs : ℚ) : ℝ)) := by
  obtain ⟨hlen, _, hov⟩ := processWalletData_ok_spec now bs cs overall h
  refine ⟨hlen, ?_, ?_⟩
  · rintro rfl
    refine ⟨List.length_eq_zero.mp hlen, ?_⟩
    rw [hov]
    simp [bucketWeightSum]
  · intro hne
    rw [hov, if_pos (bucketWeightSum_pos hne)]

/-- Witness for C3: the amended aggregation applied to the empty bucket list,
where `process_wallet_data` returns `([], 0.0)`. -/
theorem c3_weighted_aggregation_witness :
    ([] : List CategoryScore).length = ([] : List ProtocolData).length ∧
    (([] : List ProtocolData) = [] → ([] : List CategoryScore) = [] ∧ (0:ℝ) = 0) ∧
    (([] : List ProtocolData) ≠ [] →
      (0:ℝ) = weightedScoreTotal [] [] / ((bucketWeightSum [] : ℚ) : ℝ)) :=
  c3_weighted_aggregation 0 [] [] 0 rfl

/-! ## Wallet-address validation (claim C5) -/

/-- Hexadecimal digit check for a character. -/
def isHexChar (c : Char) : Bool :=
  c.isDigit || ('a' ≤ c && c ≤ 'f') || ('A' ≤ c && c ≤ 'F')

/-- Modelled from the spec: the documented wallet-address contract — the
string "0x" followed by 40 hexadecimal characters.  The code's validator
(`validateWalletAddress`) checks only the prefix and the total length. -/
def specAddressContract (s : String) : Bool :=
  pyStartsWith s "0x" && s.length == 42 && (s.data.drop 2).all isHexChar

/-- A 42-character address starting with "0x" whose 40 trailing characters are
not hexadecimal. -/
def zAddress : String := "0xzzzzzzzzzzzzzzzzzzzzzzzzzzzzzzzzzzzzzzzz"

/-- A wallet input using `zAddress` and no buckets. -/
def zWallet : WalletTransactionInput :=
  { wallet_address := zAddress, data := [] }

/-- Claim C5 as stated is false: `zAddress` violates the "0x + 40 hex
characters" contract, yet the validator accepts it (it never inspects the 40
trailing characters) and the message is processed into a success record. -/
theorem c5_counterexample :
    specAddressContract zAddress = false ∧
    validateWalletAddress zAddress = true ∧
    (processMessage 0 zWallet).isSuccess = true := by
  refine ⟨by decide, by decide, ?_⟩
  rfl

/-- Claim C5 (amended): every input whose wallet_address fails the check the
code actually performs — "0x" prefix and length exactly 42 — produces a
failure record and never a success record. -/
theorem c5_invalid_address_fails (now : ℤ) (w : WalletTransactionInput)
    (h : validateWalletAddress w.wallet_address = false) :
    (processMessage now w).isFailure = true ∧
      (processMessage now w).isSuccess = false := by
  have hv : validWalletInput w = false := by
    simp [validWalletInput, h]
  simp [processMessage, hv, Outcome.isFailure, Outcome.isSuccess]

/-- The invalid-address input of end-to-end scenario B. -/
def invalidAddressWallet : WalletTransactionInput :=
  { wallet_address := "invalid_address", data := [] }

/-- Witness for C5: scenario B's `wallet_address = "invalid_address"` with
empty data yields a failure record and no success record. -/
theorem c5_invalid_address_fails_witness :
    (processMessage 0 invalidAddressWallet).isFailure = true ∧
      (processMessage 0 invalidAddressWallet).isSuccess = false :=
  c5_invalid_address_fails 0 invalidAddressWallet (by decide)

/-! ## Empty dexes bucket (claim C10) -/

theorem processBuckets_error_of_empty_dexes (now : ℤ) (bs : List ProtocolData)
    (pd : ProtocolData) (hmem : pd ∈ bs)
    (hdex : (pyLower pd.protocolType == "dexes") = true)
    (hempty : pd.transactions = []) :
    ∀ (acc : List CategoryScore) (tS : ℝ) (tW : ℚ),
      ∃ e, processBuckets now acc tS tW bs = Except.error e := by
  induction bs with
  | nil => exact absurd hmem (List.not_mem_nil pd)
  | cons b rest ih =>
      intro acc tS tW
      simp only [processBuckets]
      rcases List.mem_cons.mp hmem with rfl | hmem2
      · rw [if_pos hdex]
        have hds : calculateDexScore now pd.transactions =
            Except.error "KeyError: timestamp" := by
          rw [hempty]
          rfl
        rw [hds]
        exact ⟨_, rfl⟩
      · by_cases hb : (pyLower b.protocolType == "dexes") = true
        · rw [if_pos hb]
          cases hd : calculateDexScore now b.transactions with
          | error e => exact ⟨e, rfl⟩
          | ok c => exact ih hmem2 _ _ _
        · rw [if_neg hb]
          exact ⟨_, rfl⟩

/-- Claim C10: a wallet containing a "dexes" bucket with an empty transaction
list makes scoring raise (the empty bucket's DataFrame has no timestamp column
to sort), so the message yields a failure record, never a success record with
a default score. -/
theorem c10_empty_dexes_bucket_fails (now : ℤ) (w : WalletTransactionInput)
    (pd : ProtocolData) (hmem : pd ∈ w.data)
    (hdex : (pyLower pd.protocolType == "dexes") = true)
    (hempty : pd.transactions = []) :
    (∃ e, processWalletData now w.data = Except.error e) ∧
      (processMessage now w).isFailure = true := by
  obtain ⟨e, he⟩ := processBuckets_error_of_empty_dexes now w.data pd hmem hdex hempty [] 0 0
  have hw : processWalletData now w.data = Except.error e := by
    simp only [processWalletData, he]
  refine ⟨⟨e, hw⟩, ?_⟩
  by_cases hv : validWalletInput w = true
  · simp [processMessage, hv, hw, Outcome.isFailure]
  · simp [processMessage, hv, Outcome.isFailure]

/-- A valid wallet whose single bucket is a "dexes" bucket with no
transactions. -/
def emptyDexesWallet : WalletTransactionInput :=
  { wallet_address := "0x0000000000000000000000000000000000000001"
    data := [{ protocolType := "dexes", transactions := [] }] }

/-- Witness for C10: the concrete empty-dexes-bucket wallet raises in scoring
and produces a failure record. -/
theorem c10_empty_dexes_bucket_fails_witness :
    (∃ e, processWalletData 0 emptyDexesWallet.data = Except.error e) ∧
      (processMessage 0 emptyDexesWallet).isFailure = true :=
  c10_empty_dexes_bucket_fails 0 emptyDexesWallet
    { protocolType := "dexes", transactions := [] }
    (by simp [emptyDexesWallet]) (by decide) rfl

/-! ## The 18-digit zscore string (claim C6) -/

theorem digitChar_isDigit (d : ℕ) (hd : d < 10) :
    (Char.ofNat (48 + d)).isDigit = true := by
  interval_cases d <;> decide

theorem natDecChars_all_digits (n : ℕ) :
    (natDecChars n).all Char.isDigit = true := by
  unfold natDecChars
  split
  · decide
  · rw [List.all_eq_true]
    intro c hc
    rw [List.mem_map] at hc
    obtain ⟨d, hd, rfl⟩ := hc
    rw [List.mem_reverse] at hd
    exact digitChar_isDigit d (Nat.digits_lt_base (by norm_num) hd)

theorem natDecChars_ne_nil (n : ℕ) : natDecChars n ≠ [] := by
  unfold natDecChars
  split
  · simp
  · simp only [ne_eq, List.map_eq_nil_iff, List.reverse_eq_nil_iff]
    exact Nat.digits_ne_nil_iff_ne_zero.mpr (by assumption)

theorem natDecChars_length_le (n k : ℕ) (hn : n < 10 ^ k) (hk : 1 ≤ k) :
    (natDecChars n).length ≤ k := by
  unfold natDecChars
  split
  · simpa using hk
  · rw [List.length_map, List.length_reverse]
    by_contra hlen
    push_neg at hlen
    have h1 : 10 ^ (k + 1) ≤ 10 ^ (Nat.digits 10 n).length :=
      Nat.pow_le_pow_right (by norm_num) hlen
    have h2 : 10 ^ (Nat.digits 10 n).length ≤ 10 * n :=
      Nat.base_pow_length_digits_le 10 n (by norm_num) (by assumption)
    have h3 : 10 * 10 ^ k ≤ 10 * n := by
      calc 10 * 10 ^ k = 10 ^ (k + 1) := by ring
        _ ≤ 10 ^ (Nat.digits 10 n).length := h1
        _ ≤ 10 * n := h2
    omega

/-- Shape of a fixed-point decimal string with exactly 18 digits after the
decimal point: a non-empty all-digit integer part, one '.', and exactly 18
digit characters.  Every character is a digit or the dot, so in particular no
exponent marker ever appears (never scientific notation). -/
def zscoreShape (s : String) : Prop :=
  ∃ intPart fracPart : List Char,
    s.data = intPart ++ '.' :: fracPart ∧
    intPart ≠ [] ∧ intPart.all Char.isDigit = true ∧
    fracPart.length = 18 ∧ fracPart.all Char.isDigit = true

theorem formatFixed18_shape (x : ℝ) (hx : 0 ≤ x) :
    zscoreShape (formatFixed18 x) := by
  unfold formatFixed18
  have h0 : (0:ℤ) ≤ round (x * 10 ^ 18) := by
    rw [round_eq]
    refine Int.le_floor.mpr ?_
    have hxx : (0:ℝ) ≤ x * 10 ^ 18 := mul_nonneg hx (by norm_num)
    push_cast
    linarith
  rw [if_neg (not_lt.mpr h0)]
  have hfl : (natDecChars ((round (x * 10 ^ 18)).toNat % 10 ^ 18)).length ≤ 18 :=
    natDecChars_length_le _ 18 (Nat.mod_lt _ (by norm_num)) (by norm_num)
  refine ⟨natDecChars ((round (x * 10 ^ 18)).toNat / 10 ^ 18),
    padTo18 (natDecChars ((round (x * 10 ^ 18)).toNat % 10 ^ 18)),
    rfl, natDecChars_ne_nil _, natDecChars_all_digits _, ?_, ?_⟩
  · unfold padTo18
    rw [List.length_append, List.length_replicate]
    omega
  · unfold padTo18
    rw [List.all_append, natDecChars_all_digits, Bool.and_true, List.all_eq_true]
    intro c hc
    rw [List.eq_of_mem_replicate hc]
    decide

/-- Claim C6: every published WalletScoreSuccess carries a `zscore` string
that is a fixed-point decimal with exactly 18 digits after the decimal point
and never in scientific notation. -/
theorem c6_zscore_18_digits (now : ℤ) (w : WalletTransactionInput)
    (msg : WalletScoreSuccess) (h : processMessage now w = Outcome.success msg) :
    zscoreShape msg.zscore := by
  simp only [processMessage] at h
  by_cases hv : validWalletInput w = true
  · rw [if_pos hv] at h
    cases hpd : processWalletData now w.data with
    | error e =>
        rw [hpd] at h
        exact absurd h (by simp)
    | ok pr =>
        obtain ⟨cs, overall⟩ := pr
        rw [hpd] at h
        simp only [Outcome.success.injEq] at h
        subst h
        exact formatFixed18_shape overall
          (processWalletData_overall_bounds now w.data cs overall hpd).1
  · rw [if_neg hv] at h
    exact absurd h (by simp)

/-- Witness for C6: the empty wallet succeeds and its zscore string
(`formatFixed18` of the 0.0 overall score) has the 18-fractional-digit
fixed-point shape. -/
theorem c6_zscore_18_digits_witness : zscoreShape (formatFixed18 0) :=
  c6_zscore_18_digits 0 emptyWallet
    { wallet_address := emptyWallet.wallet_address
      zscore := formatFixed18 0
      timestamp := 0
      processing_time_ms := 0
      categories := [] } rfl

/-! ## Lower bound of a dexes category score (claim C9) -/

/-- All token `amountUSD` values of a transaction list are non-negative
(missing tokens count as 0). -/
def NonNegAmounts (txs : List Transaction) : Prop :=
  ∀ tx ∈ txs,
    0 ≤ (tx.tokenIn.map TokenInfo.amountUSD).getD 0 ∧
    0 ≤ (tx.tokenOut.map TokenInfo.amountUSD).getD 0 ∧
    0 ≤ (tx.token0.map TokenInfo.amountUSD).getD 0 ∧
    0 ≤ (tx.token1.map TokenInfo.amountUSD).getD 0

instance : DecidablePred NonNegAmounts := fun txs =>
  List.decidableBAll _ txs

theorem extractDexFeatures_nonneg (now : ℤ) (txs : List Transaction)
    (h : NonNegAmounts txs) :
    0 ≤ (extractDexFeatures now (dataframeRows txs)).total_deposit_usd ∧
    0 ≤ (extractDexFeatures now (dataframeRows txs)).total_swap_volume ∧
    0 ≤ (extractDexFeatures now (dataframeRows txs)).total_withdraw_usd := by
  have hrow : ∀ r ∈ dataframeRows txs,
      0 ≤ r.token_in_amount ∧ 0 ≤ r.token_out_amount ∧
      0 ≤ r.token0_amount ∧ 0 ≤ r.token1_amount := by
    intro r hr
    have hr2 : r ∈ txs.map txRow := (dataframeRows_perm txs).mem_iff.mp hr
    obtain ⟨tx, htx, rfl⟩ := List.mem_map.mp hr2
    exact h tx htx
  have hsum : ∀ (p : Row → Bool) (g : Row → ℚ),
      (∀ r ∈ dataframeRows txs, 0 ≤ g r) →
      0 ≤ (((dataframeRows txs).filter p).map g).sum := by
    intro p g hg
    refine List.sum_nonneg ?_
    intro x hx
    obtain ⟨r, hr, rfl⟩ := List.mem_map.mp hx
    exact hg r (List.mem_of_mem_filter hr)
  simp only [extractDexFeatures]
  refine ⟨?_, ?_, ?_⟩
  · have h1 := hsum isDepositAction Row.token0_amount fun r hr => (hrow r hr).2.2.1
    have h2 := hsum isDepositAction Row.token1_amount fun r hr => (hrow r hr).2.2.2
    linarith
  · exact hsum isSwapAction Row.token_in_amount fun r hr => (hrow r hr).1
  · have h1 := hsum isWithdrawAction Row.token0_amount fun r hr => (hrow r hr).2.2.1
    have h2 := hsum isWithdrawAction Row.token1_amount fun r hr => (hrow r hr).2.2.2
    linarith

theorem volumeBonus_nonneg (v : ℚ) : 0 ≤ volumeBonus v := by
  unfold volumeBonus
  split_ifs <;> norm_num

theorem frequencyBonus_nonneg (n : ℕ) : 0 ≤ frequencyBonus n := by
  unfold frequencyBonus
  split_ifs <;> norm_num

theorem holdingBonus_nonneg (h : ℚ) : 0 ≤ holdingBonus h := by
  unfold holdingBonus
  split_ifs <;> norm_num

theorem poolDiversityBonus_nonneg (p : ℕ) : 0 ≤ poolDiversityBonus p := by
  unfold poolDiversityBonus
  split_ifs <;> norm_num

theorem sizeConsistencyBonus_nonneg (a : ℚ) : 0 ≤ sizeConsistencyBonus a := by
  unfold sizeConsistencyBonus
  split_ifs <;> norm_num

theorem retentionBonus_nonneg {d w : ℚ} (hw : 0 ≤ w) :
    0 ≤ retentionBonus d w := by
  unfold retentionBonus
  split_ifs with h1
  · have hd : 0 < d := lt_of_le_of_lt hw h1
    have : (0:ℚ) ≤ (d - w) / d := div_nonneg (by linarith) hd.le
    nlinarith
  · exact le_rfl

theorem lpScore_nonneg (f : CategoryFeatures) (hw : 0 ≤ f.total_withdraw_usd) :
    0 ≤ lpScore f := by
  unfold lpScore
  have h1 := volumeBonus_nonneg f.total_deposit_usd
  have h2 := frequencyBonus_nonneg f.num_deposits
  have h3 := holdingBonus_nonneg f.avg_hold_time_days
  have h4 := poolDiversityBonus_nonneg f.unique_pools
  have h5 := retentionBonus_nonneg (d := f.total_deposit_usd) hw
  exact le_min (by linarith) (by norm_num)

theorem swapScore_nonneg (f : CategoryFeatures) : 0 ≤ swapScore f := by
  unfold swapScore
  have h1 := volumeBonus_nonneg f.total_swap_volume
  have h2 := frequencyBonus_nonneg f.num_swaps
  have h3 := sizeConsistencyBonus_nonneg f.avg_transaction_size_usd
  have h4 := poolDiversityBonus_nonneg f.unique_pools
  exact le_min (by linarith) (by norm_num)

theorem exp_five_halves_bounds :
    (12.1822 : ℝ) < Real.exp (5 / 2) ∧ Real.exp (5 / 2) < 12.1828 := by
  have he1 := Real.exp_one_gt_d9
  have he2 := Real.exp_one_lt_d9
  have hy2 : Real.exp (1 / 2) * Real.exp (1 / 2) = Real.exp 1 := by
    rw [← Real.exp_add]
    norm_num
  have hy0 : (0:ℝ) < Real.exp (1 / 2) := Real.exp_pos _
  have hylo : (1.6487212 : ℝ) < Real.exp (1 / 2) := by nlinarith
  have hyhi : Real.exp (1 / 2) < 1.6487213 := by nlinarith
  have hsplit : Real.exp (5 / 2) = Real.exp (1 / 2) * (Real.exp 1 * Real.exp 1) := by
    rw [← Real.exp_add, ← Real.exp_add]
    norm_num
  constructor
  · rw [hsplit]
    nlinarith
  · rw [hsplit]
    nlinarith

theorem round2_normalize_ge (c : ℚ) (hc : 0 ≤ c) :
    1000 / (1 + Real.exp (5 / 2)) ≤ round2 (normalizeScore c) := by
  obtain ⟨hE1, hE2⟩ := exp_five_halves_bounds
  have hEpos : (0:ℝ) < Real.exp (5 / 2) := Real.exp_pos _
  have hBlo : (75.855 : ℝ) ≤ 1000 / (1 + Real.exp (5 / 2)) := by
    rw [le_div_iff₀ (by linarith)]
    linarith
  have hBhi : 1000 / (1 + Real.exp (5 / 2)) ≤ 75.86 := by
    rw [div_le_iff₀ (by linarith)]
    linarith
  have hcR : (0:ℝ) ≤ (c : ℝ) := by exact_mod_cast hc
  have hz : Real.exp (-((c : ℝ) - 500) / 200) ≤ Real.exp (5 / 2) :=
    Real.exp_le_exp.mpr (by linarith)
  have hd1 : (0:ℝ) < 1 + Real.exp (-((c : ℝ) - 500) / 200) := by positivity
  have hfrac : 1000 / (1 + Real.exp (5 / 2)) ≤
      1000 / (1 + Real.exp (-((c : ℝ) - 500) / 200)) := by
    gcongr
  have hnle : 1000 / (1 + Real.exp (-((c : ℝ) - 500) / 200)) ≤ 1000 := by
    rw [div_le_iff₀ hd1]
    nlinarith [Real.exp_pos (-((c : ℝ) - 500) / 200)]
  have hnpos : (0:ℝ) ≤ 1000 / (1 + Real.exp (-((c : ℝ) - 500) / 200)) := by
    positivity
  have hn : 1000 / (1 + Real.exp (5 / 2)) ≤ normalizeScore c := by
    unfold normalizeScore
    rw [min_eq_right hnle, max_eq_right hnpos]
    exact hfrac
  have hmono : round (100 * (1000 / (1 + Real.exp (5 / 2)))) ≤
      round (100 * normalizeScore c) := by
    rw [round_eq, round_eq]
    exact Int.floor_le_floor (by linarith)
  have hrB : (7586:ℤ) ≤ round (100 * (1000 / (1 + Real.exp (5 / 2)))) := by
    rw [round_eq]
    refine Int.le_floor.mpr ?_
    push_cast
    linarith
  unfold round2
  rw [le_div_iff₀ (by norm_num : (0:ℝ) < 100)]
  have hcast : (7586:ℝ) ≤ ((round (100 * normalizeScore c) : ℤ) : ℝ) := by
    exact_mod_cast le_trans hrB hmono
  linarith

/-- Claim C9: a non-empty "dexes" bucket always scores without error, and with
non-negative `amountUSD` inputs the resulting category score is at least
`1000 / (1 + e^(5/2))` (≈ 75.86): the LP and swap scores only accumulate
non-negative bonuses, so the combined score is ≥ 0 and the logistic
normalization maps it no lower than that constant; a "dexes" category score is
therefore never 0 nor close to 0. -/
theorem c9_dex_score_lower_bound (now : ℤ) (txs : List Transaction)
    (hne : txs ≠ []) (hnn : NonNegAmounts txs) :
    ∃ cs, calculateDexScore now txs = Except.ok cs ∧
      1000 / (1 + Real.exp (5 / 2)) ≤ cs.score := by
  have hdf : transactionsToDataframe txs = Except.ok (dataframeRows txs) := by
    unfold transactionsToDataframe
    rw [if_neg (by simpa [List.isEmpty_iff] using hne)]
  simp only [calculateDexScore, hdf]
  refine ⟨_, rfl, ?_⟩
  obtain ⟨hd, hs, hw⟩ := extractDexFeatures_nonneg now txs hnn
  have h1 : 0 ≤ lpScore (extractDexFeatures now (dataframeRows txs)) :=
    lpScore_nonneg _ hw
  have h2 : 0 ≤ swapScore (extractDexFeatures now (dataframeRows txs)) :=
    swapScore_nonneg _
  exact round2_normalize_ge _ (by linarith)

/-- Witness for C9: the concrete scenario-A bucket (one swap, one deposit,
non-negative amounts) scores successfully and its score clears the
`1000 / (1 + e^(5/2))` floor. -/
theorem c9_dex_score_lower_bound_witness :
    ∃ cs, calculateDexScore 1704067200 scenarioTransactions = Except.ok cs ∧
      1000 / (1 + Real.exp (5 / 2)) ≤ cs.score :=
  c9_dex_score_lower_bound 1704067200 scenarioTransactions (by decide) (by decide)
